import Mathlib

/-!
Verification of the bluesky-social MCP server core: the session-scoped
credential manager (`BlueskyAuthManager` in
`bluesky_mcp_server/authentication.py`), the authentication gate
(`require_auth` in `server.py`), the pagination limit clamp
(`max(1, min(100, limit))` used by every paginated tool), and the
success / error result envelopes of the tool-facing operations.

The embedding follows the Python source closely.  The `limit` parameter of
the paginated tools is typed `Union[int, str]` in the source, so it is
modelled by an inductive `PyVal` of integers and strings, and the Python
`min` / `max` builtins are modelled with Python 3 comparison semantics:
comparing an `int` with a `str` raises `TypeError`.
-/

namespace Bluesky

/-- A Python value that can arrive in the `limit : Union[int, str]` parameter
of the paginated tools: either an `int` or a `str`. -/
inductive PyVal where
  | intVal (n : Int)
  | strVal (s : String)
deriving DecidableEq, Repr

/-- The Python runtime errors the embedding models.  `typeError` is what
Python 3 raises when an `int` is compared with a `str`. -/
inductive PyError where
  | typeError
deriving DecidableEq, Repr

/-- Python 3 `a < b` on our values: defined within one type, a `TypeError`
across types. -/
def pyLt : PyVal → PyVal → Except PyError Bool
  | .intVal a, .intVal b => .ok (decide (a < b))
  | .strVal a, .strVal b => .ok (decide (a < b))
  | _, _ => .error .typeError

/-- Python 3 `a > b` on our values: defined within one type, a `TypeError`
across types. -/
def pyGt : PyVal → PyVal → Except PyError Bool
  | .intVal a, .intVal b => .ok (decide (b < a))
  | .strVal a, .strVal b => .ok (decide (b < a))
  | _, _ => .error .typeError

/-- Python `min(a, b)`: returns `b` when `b < a`, else `a`; propagates the
`TypeError` of the comparison. -/
def pyMin (a b : PyVal) : Except PyError PyVal :=
  match pyLt b a with
  | .ok true => .ok b
  | .ok false => .ok a
  | .error e => .error e

/-- Python `max(a, b)`: returns `b` when `b > a`, else `a`; propagates the
`TypeError` of the comparison. -/
def pyMax (a b : PyVal) : Except PyError PyVal :=
  match pyGt b a with
  | .ok true => .ok b
  | .ok false => .ok a
  | .error e => .error e

/-- The limit clamp of every paginated tool, `server.py` line 225 and its
copies: the Python expression `max(1, min(100, limit))` with
`limit : Union[int, str]`. -/
def clampLimit (limit : PyVal) : Except PyError PyVal :=
  match pyMin (.intVal 100) limit with
  | .ok m => pyMax (.intVal 1) m
  | .error e => .error e

/-- The value the clamp computes on an integer input (`max(1, min(100, x))`
over `Int`, which agrees with the Python expression on `int`). -/
def clampInt (x : Int) : Int :=
  max 1 (min 100 x)

theorem clampLimit_int_eq (n : Int) :
    clampLimit (.intVal n) = .ok (.intVal (clampInt n)) := by
  simp only [clampLimit, pyMin, pyMax, pyLt, pyGt, clampInt]
  by_cases h1 : n < 100 <;> by_cases h2 : (1 : Int) < n <;>
    simp [h1, h2] <;> omega

theorem clampLimit_str_eq (s : String) :
    clampLimit (.strVal s) = .error .typeError := rfl

/-- C1 counterexample: on the numeric-string input `"50"` the clamp does not
compute an integer — it raises a `TypeError` (Python 3 refuses `str < int`),
exactly as `max(1, min(100, "50"))` does in the source. -/
theorem clampLimit_rejects_numeric_string :
    clampLimit (.strVal "50") = .error .typeError := rfl

/-- C1 (amended): the clamp is total over integer input and lands in
`[1, 100]` there, but on every string input — numeric strings such as `"50"`
included — it raises a `TypeError` instead of clamping. -/
theorem clampLimit_total_on_int_raises_on_string :
    (∀ n : Int, clampLimit (.intVal n) = .ok (.intVal (clampInt n)) ∧
      1 ≤ clampInt n ∧ clampInt n ≤ 100) ∧
    (∀ s : String, clampLimit (.strVal s) = .error .typeError) := by
  constructor
  · intro n
    refine ⟨clampLimit_int_eq n, ?_, ?_⟩ <;> · simp only [clampInt]; omega
  · intro s
    exact clampLimit_str_eq s

/-- C2: the clamp is idempotent on integer input (re-clamping a clamped value
is the identity, stated through `clampLimit` itself) and matches the
reference values `clamp 0 = 1`, `clamp 500 = 100`, `clamp 50 = 50`. -/
theorem clampLimit_idempotent_reference_values (x : Int) :
    clampLimit (.intVal (clampInt x)) = .ok (.intVal (clampInt x)) ∧
    clampInt 0 = 1 ∧ clampInt 500 = 100 ∧ clampInt 50 = 50 := by
  refine ⟨?_, by decide, by decide, by decide⟩
  have h := clampLimit_int_eq (clampInt x)
  have hfix : clampInt (clampInt x) = clampInt x := by
    simp only [clampInt]
    omega
  rw [h, hfix]

/-!
Session registry and authentication manager, from
`bluesky_mcp_server/authentication.py` (`BlueskyAuthManager`).  The manager
keeps `self._clients`, a dict from the session id string to the
authenticated `atproto` client.  The remote `Client(service_url).login`
handshake is external to this repository, so it enters the embedding as a
function parameter `doLogin` returning either an authenticated client or
the message of the raised exception.
-/

/-- The identity an authenticated `atproto` client exposes (`client.me` plus
the display name used in the post-login log line). -/
structure ClientHandle where
  meHandle : String
  meDid : String
  displayName : String
deriving DecidableEq, Repr

/-- The `BlueskyAuthManager._clients` dict: session id string to client. -/
abbrev Registry := String → Option ClientHandle

/-- Dict write `self._clients[session_id] = client`. -/
def Registry.put (reg : Registry) (sid : String) (c : ClientHandle) : Registry :=
  fun k => if k = sid then some c else reg k

/-- The external `Client(service_url).login(handle, password)` handshake:
handle, password, service url to client or raised-exception message. -/
abbrev LoginFn := String → String → String → Except String ClientHandle

/-- Result of one `authenticate` / `authenticate_from_env` call: the returned
`(success, error)` pair, the registry afterwards, and how many remote login
calls were made on the way. -/
structure AuthOutcome where
  success : Bool
  errorMsg : Option String
  reg : Registry
  loginCalls : Nat

/-- `BlueskyAuthManager.authenticate`: perform the remote login; on success
store the client under the session id and return `(True, None)`; on a raised
exception return `(False, "Authentication failed: ...")` without touching
the registry. -/
def authenticate (doLogin : LoginFn) (reg : Registry)
    (sid handle password serviceUrl : String) : AuthOutcome :=
  match doLogin handle password serviceUrl with
  | .ok client =>
      { success := true, errorMsg := none,
        reg := reg.put sid client, loginCalls := 1 }
  | .error e =>
      { success := false, errorMsg := some ("Authentication failed: " ++ e),
        reg := reg, loginCalls := 1 }

/-- Process environment as the manager reads it: the three recognized
variables, each unset (`none`) or set to a string (possibly empty). -/
structure Env where
  identifier : Option String
  password : Option String
  serviceUrl : Option String
deriving DecidableEq, Repr

/-- Python truthiness test `not v` for an `os.environ.get` result: true when
the variable is unset or set to the empty string. -/
def falsy : Option String → Bool
  | none => true
  | some s => s.isEmpty

/-- `os.environ.get("BLUESKY_SERVICE_URL", "https://bsky.social")`. -/
def envServiceUrl (env : Env) : String :=
  env.serviceUrl.getD "https://bsky.social"

/-- The error message `authenticate_from_env` returns when credentials are
missing (verbatim from the source). -/
def missingCredsMsg : String :=
  "BLUESKY_IDENTIFIER and/or BLUESKY_APP_PASSWORD environment variables not set"

/-- `BlueskyAuthManager.authenticate_from_env`: read the environment; if
`not handle or not password`, fail with `missingCredsMsg` without any remote
call; otherwise delegate to `authenticate`. -/
def authenticate_from_env (doLogin : LoginFn) (env : Env)
    (reg : Registry) (sid : String) : AuthOutcome :=
  if falsy env.identifier || falsy env.password then
    { success := false, errorMsg := some missingCredsMsg,
      reg := reg, loginCalls := 0 }
  else
    authenticate doLogin reg sid (env.identifier.getD "")
      (env.password.getD "") (envServiceUrl env)

/-- `BlueskyAuthManager.get_client`: `self._clients.get(session_id)`. -/
def get_client (reg : Registry) (sid : String) : Option ClientHandle :=
  reg sid

/-- `BlueskyAuthManager.is_authenticated`: `get_client(ctx) is not None`. -/
def is_authenticated (reg : Registry) (sid : String) : Bool :=
  (get_client reg sid).isSome

/-- `BlueskyAuthManager.logout`: when the session id is in the dict, delete
it and return `True`; otherwise return `False`. -/
def logout (reg : Registry) (sid : String) : Bool × Registry :=
  if (reg sid).isSome then
    (true, fun k => if k = sid then none else reg k)
  else
    (false, reg)

/-!
Result envelopes and the tool layer: `require_auth` and the tool functions
of `server.py`, plus `login` / `logout` / `check_auth_status` of
`bluesky_mcp_server/server.py`.  Remote calls made by a tool body are again
function parameters returning `Except`, an `.error` being the exception the
surrounding `try` catches.
-/

/-- The structured object every tool returns: a `status` discriminant, an
optional human-readable `message`, and the remaining payload entries. -/
structure Envelope where
  status : String
  message : Option String := none
  payload : List (String × String) := []
deriving DecidableEq, Repr

/-- Result of running a `require_auth`-wrapped tool: the envelope, the
registry afterwards, the number of remote login calls, the number of
environment-authentication attempts, and how many times the wrapped tool
body actually ran. -/
structure GateOutcome where
  result : Envelope
  reg : Registry
  loginCalls : Nat
  envAuthCalls : Nat
  bodyRuns : Nat

/-- The `require_auth` decorator of `server.py`: if the session is
authenticated, run the wrapped body; otherwise attempt one environment
authentication, run the body on success, and on failure return the
`Authentication required.` error envelope without running the body. -/
def require_auth (doLogin : LoginFn) (env : Env)
    (func : Registry → Envelope) (reg : Registry) (sid : String) :
    GateOutcome :=
  if is_authenticated reg sid then
    { result := func reg, reg := reg,
      loginCalls := 0, envAuthCalls := 0, bodyRuns := 1 }
  else
    let o := authenticate_from_env doLogin env reg sid
    if o.success then
      { result := func o.reg, reg := o.reg,
        loginCalls := o.loginCalls, envAuthCalls := 1, bodyRuns := 1 }
    else
      { result := { status := "error",
                    message := some ("Authentication required. " ++
                      o.errorMsg.getD "None") },
        reg := o.reg,
        loginCalls := o.loginCalls, envAuthCalls := 1, bodyRuns := 0 }

/-- The `login` tool of `bluesky_mcp_server/server.py`: explicit
authentication with the default service url, wrapped into an envelope. -/
def login_tool (doLogin : LoginFn) (reg : Registry)
    (sid handle password : String) : Envelope × Registry :=
  let o := authenticate doLogin reg sid handle password "https://bsky.social"
  if o.success then
    ({ status := "success", message := some ("Logged in as " ++ handle) }, o.reg)
  else
    ({ status := "error", message := o.errorMsg }, o.reg)

/-- The `logout` tool of `bluesky_mcp_server/server.py`. -/
def logout_tool (reg : Registry) (sid : String) : Envelope × Registry :=
  let r := logout reg sid
  if r.1 then
    ({ status := "success", message := some "Logged out successfully" }, r.2)
  else
    ({ status := "error", message := some "Not logged in" }, r.2)

/-- The `check_auth_status` tool of `server.py` (lines 126-166): status
`"authenticated"` with the identity when a client is stored, otherwise
`"not_authenticated"` with a diagnostic that depends on whether the two
required environment variables are set.  (The apostrophe of the source
diagnostic text is elided.) -/
def check_auth_status (env : Env) (reg : Registry) (sid : String) : Envelope :=
  match reg sid with
  | some c =>
      { status := "authenticated",
        payload := [("handle", c.meHandle), ("did", c.meDid)] }
  | none =>
      if !falsy env.identifier && !falsy env.password then
        { status := "not_authenticated",
          message := some ("Environment variables are set but authentication has not happened yet. Will connect to " ++
            envServiceUrl env ++ " when you use any tool.") }
      else
        { status := "not_authenticated",
          message := some "Required environment variables BLUESKY_IDENTIFIER and/or BLUESKY_APP_PASSWORD are not set." }

/-- `passCursor`: the `if cursor: params["cursor"] = cursor` idiom — the
cursor is forwarded only when present and non-empty (Python truthiness). -/
def passCursor : Option String → Option String
  | none => none
  | some s => if s.isEmpty then none else some s

/-- Remote `client.app.bsky.graph.get_follows(params)` call: actor, clamped
limit and optional cursor to response data or raised-exception message. -/
abbrev FollowsFn := String → Int → Option String →
  Except String (List (String × String))

/-- Remote `client.app.bsky.actor.get_profile` call. -/
abbrev ProfileFn := String → Except String (List (String × String))

/-- The `if not handle: handle = client.me.handle` idiom: default the actor
to the authenticated identity when the argument is absent or empty. -/
def defaultActor (me : String) : Option String → String
  | none => me
  | some h => if h.isEmpty then me else h

/-- The `try` body of `get_follows` (`server.py` lines 220-235), given the
authenticated client: default the actor to `client.me.handle` when the
handle argument is absent or empty, clamp the limit (a raised `TypeError`
is caught by the `except` into the error envelope), forward the cursor when
truthy, and wrap the remote result or the caught exception. -/
def get_follows_body (c : ClientHandle) (remote : FollowsFn)
    (handleArg : Option String) (limit : PyVal) (cursor : Option String) :
    Envelope :=
  match clampLimit limit with
  | .error _ =>
      { status := "error",
        message := some "Failed to get follows: TypeError comparing str and int" }
  | .ok (.intVal l) =>
      match remote (defaultActor c.meHandle handleArg) l (passCursor cursor) with
      | .ok d => { status := "success", payload := d }
      | .error e =>
          { status := "error", message := some ("Failed to get follows: " ++ e) }
  | .ok (.strVal _) =>
      -- Unreachable: `clampLimit` never returns a string
      -- (`clampLimit_int_eq`, `clampLimit_str_eq`).
      { status := "error",
        message := some "Failed to get follows: TypeError comparing str and int" }

/-- The full `get_follows` tool: the body above behind `require_auth`.  The
`none` client branch models the `AttributeError` a `None` client would raise
inside the `try`; it is unreachable behind the gate. -/
def get_follows (doLogin : LoginFn) (env : Env) (remote : FollowsFn)
    (reg : Registry) (sid : String) (handleArg : Option String)
    (limit : PyVal) (cursor : Option String) : GateOutcome :=
  require_auth doLogin env
    (fun r => match r sid with
      | some c => get_follows_body c remote handleArg limit cursor
      | none =>
          { status := "error",
            message := some "Failed to get follows: NoneType has no attribute me" })
    reg sid

/-- The `try` body of `get_profile` (`server.py` lines 184-195). -/
def get_profile_body (c : ClientHandle) (remote : ProfileFn)
    (handleArg : Option String) : Envelope :=
  match remote (defaultActor c.meHandle handleArg) with
  | .ok p => { status := "success", payload := p }
  | .error e =>
      { status := "error", message := some ("Failed to get profile: " ++ e) }

/-- The full `get_profile` tool behind `require_auth`. -/
def get_profile (doLogin : LoginFn) (env : Env) (remote : ProfileFn)
    (reg : Registry) (sid : String) (handleArg : Option String) :
    GateOutcome :=
  require_auth doLogin env
    (fun r => match r sid with
      | some c => get_profile_body c remote handleArg
      | none =>
          { status := "error",
            message := some "Failed to get profile: NoneType has no attribute me" })
    reg sid

/-!
Helper lemmas shared by the claim theorems.
-/

theorem Registry.put_self (reg : Registry) (sid : String) (c : ClientHandle) :
    Registry.put reg sid c sid = some c := by
  simp [Registry.put]

theorem Registry.put_ne (reg : Registry) (sidA sidB : String) (c : ClientHandle)
    (h : sidB ≠ sidA) : Registry.put reg sidA c sidB = reg sidB := by
  simp [Registry.put, h]

theorem authenticate_preserves_other (doLogin : LoginFn) (reg : Registry)
    (sidA sidB handle password url : String) (hne : sidA ≠ sidB) :
    (authenticate doLogin reg sidA handle password url).reg sidB = reg sidB := by
  unfold authenticate
  cases hd : doLogin handle password url with
  | ok c => simp only [hd]; exact Registry.put_ne reg sidA sidB c (Ne.symm hne)
  | error e => simp only [hd]

/-- The envelope discriminant of the proxied operations: `"success"` or
`"error"`. -/
def statusOk (e : Envelope) : Prop :=
  e.status = "success" ∨ e.status = "error"

theorem require_auth_status (doLogin : LoginFn) (env : Env)
    (func : Registry → Envelope) (reg : Registry) (sid : String)
    (hf : ∀ r, statusOk (func r)) :
    statusOk (require_auth doLogin env func reg sid).result := by
  simp only [require_auth]
  split
  · exact hf reg
  · split
    · exact hf _
    · exact Or.inr rfl

theorem get_follows_body_status (c : ClientHandle) (remote : FollowsFn)
    (ha : Option String) (lim : PyVal) (cur : Option String) :
    statusOk (get_follows_body c remote ha lim cur) := by
  unfold get_follows_body
  cases hcl : clampLimit lim with
  | error e => exact Or.inr rfl
  | ok v =>
    cases v with
    | strVal s => exact Or.inr rfl
    | intVal l =>
      dsimp only
      cases hr : remote (defaultActor c.meHandle ha) l (passCursor cur) with
      | ok d => exact Or.inl rfl
      | error e => exact Or.inr rfl

theorem get_profile_body_status (c : ClientHandle) (remote : ProfileFn)
    (ha : Option String) : statusOk (get_profile_body c remote ha) := by
  unfold get_profile_body
  cases hr : remote (defaultActor c.meHandle ha) with
  | ok p => exact Or.inl rfl
  | error e => exact Or.inr rfl

/-!
Claim theorems.
-/

/-- C3: with no stored client for the session and the identifier or the
secret variable unset (or empty), any `require_auth`-protected operation
returns the error envelope, the wrapped body never runs, no remote login is
attempted, the registry is unchanged and the session stays unauthenticated. -/
theorem gate_missing_credentials_blocks_operation
    (doLogin : LoginFn) (env : Env) (func : Registry → Envelope)
    (reg : Registry) (sid : String)
    (hno : reg sid = none)
    (hmiss : falsy env.identifier = true ∨ falsy env.password = true) :
    (require_auth doLogin env func reg sid).result.status = "error" ∧
    (require_auth doLogin env func reg sid).result.message =
      some ("Authentication required. " ++ missingCredsMsg) ∧
    (require_auth doLogin env func reg sid).bodyRuns = 0 ∧
    (require_auth doLogin env func reg sid).loginCalls = 0 ∧
    (require_auth doLogin env func reg sid).reg = reg ∧
    is_authenticated (require_auth doLogin env func reg sid).reg sid = false := by
  have hb : (falsy env.identifier || falsy env.password) = true := by
    rcases hmiss with h | h <;> simp [h]
  refine ⟨?_, ?_, ?_, ?_, ?_, ?_⟩ <;>
    simp [require_auth, authenticate_from_env, is_authenticated, get_client,
      hno, hb]

theorem gate_missing_credentials_witness :
    ((fun _ => none : Registry) "s" = none ∧
      falsy (Env.mk none (some "pw") none).identifier = true) ∧
    (require_auth (fun _ _ _ => Except.error "boom")
        (Env.mk none (some "pw") none)
        (fun _ => { status := "success" }) (fun _ => none) "s").bodyRuns = 0 := by
  exact ⟨⟨rfl, rfl⟩,
    (gate_missing_credentials_blocks_operation
      (fun _ _ _ => Except.error "boom") (Env.mk none (some "pw") none)
      (fun _ => { status := "success" }) (fun _ => none) "s"
      rfl (Or.inl rfl)).2.2.1⟩

/-- C4: `logout` on a session with no stored client returns `false` and
leaves the registry unchanged; on a session holding a client it returns
`true` and the session is unauthenticated immediately afterwards. -/
theorem logout_contract (reg : Registry) (sid : String) :
    (reg sid = none → logout reg sid = (false, reg)) ∧
    (∀ c, reg sid = some c →
      (logout reg sid).1 = true ∧
      is_authenticated (logout reg sid).2 sid = false) := by
  constructor
  · intro h
    simp [logout, h]
  · intro c h
    constructor <;> simp [logout, h, is_authenticated, get_client]

theorem logout_contract_witness :
    logout (fun _ => none) "s" = (false, fun _ => none) ∧
    ((logout (fun k => if k = "s" then some ⟨"alice", "did:plc:a", "Alice"⟩
        else none) "s").1 = true ∧
      is_authenticated (logout (fun k => if k = "s" then
        some ⟨"alice", "did:plc:a", "Alice"⟩ else none) "s").2 "s" = false) := by
  exact ⟨(logout_contract (fun _ => none) "s").1 rfl,
    (logout_contract _ "s").2 ⟨"alice", "did:plc:a", "Alice"⟩ (by simp)⟩

/-- C5: authenticating session A — explicitly or lazily from the
environment — never changes the registry entry of a different session B, so
B's `is_authenticated` is the same before and after. -/
theorem auth_session_isolation (doLogin : LoginFn) (env : Env)
    (reg : Registry) (sidA sidB handle password url : String)
    (hne : sidA ≠ sidB) :
    (authenticate doLogin reg sidA handle password url).reg sidB = reg sidB ∧
    (authenticate_from_env doLogin env reg sidA).reg sidB = reg sidB ∧
    is_authenticated (authenticate doLogin reg sidA handle password url).reg
      sidB = is_authenticated reg sidB ∧
    is_authenticated (authenticate_from_env doLogin env reg sidA).reg sidB =
      is_authenticated reg sidB := by
  have h1 := authenticate_preserves_other doLogin reg sidA sidB
    handle password url hne
  have h2 : (authenticate_from_env doLogin env reg sidA).reg sidB =
      reg sidB := by
    unfold authenticate_from_env
    split
    · rfl
    · exact authenticate_preserves_other doLogin reg sidA sidB _ _ _ hne
  exact ⟨h1, h2, by simp [is_authenticated, get_client, h1],
    by simp [is_authenticated, get_client, h2]⟩

theorem auth_session_isolation_witness :
    ("a" : String) ≠ "b" ∧
    (authenticate (fun _ _ _ => Except.ok ⟨"alice", "did:plc:a", "Alice"⟩)
      (fun _ => none) "a" "alice" "pw" "https://bsky.social").reg "b" =
      none := by
  refine ⟨by decide, ?_⟩
  exact (auth_session_isolation
    (fun _ _ _ => Except.ok ⟨"alice", "did:plc:a", "Alice"⟩)
    (Env.mk none none none) (fun _ => none) "a" "b" "alice" "pw"
    "https://bsky.social" (by decide)).1

/-- C6: when the remote login raises, `authenticate` reports failure with
the wrapped message, stores nothing, and the session stays unauthenticated;
and an entry can change only to a client the remote login actually
returned — no handle is published before the login has succeeded. -/
theorem authenticate_atomic_on_failure (doLogin : LoginFn) (reg : Registry)
    (sid handle password url : String) :
    (∀ e, doLogin handle password url = Except.error e →
      (authenticate doLogin reg sid handle password url).success = false ∧
      (authenticate doLogin reg sid handle password url).errorMsg =
        some ("Authentication failed: " ++ e) ∧
      (authenticate doLogin reg sid handle password url).reg = reg ∧
      (reg sid = none →
        is_authenticated (authenticate doLogin reg sid handle password
          url).reg sid = false)) ∧
    (∀ c, (authenticate doLogin reg sid handle password url).reg sid =
        some c →
      reg sid = some c ∨ doLogin handle password url = Except.ok c) := by
  constructor
  · intro e he
    refine ⟨?_, ?_, ?_, ?_⟩ <;>
      simp [authenticate, he, is_authenticated, get_client]
  · intro c hc
    unfold authenticate at hc
    cases hd : doLogin handle password url with
    | ok c2 =>
        simp only [hd] at hc
        rw [Registry.put_self] at hc
        obtain rfl := Option.some_inj.mp hc
        exact Or.inr rfl
    | error e =>
        simp only [hd] at hc
        exact Or.inl hc

theorem authenticate_atomic_witness :
    (authenticate (fun _ _ _ => Except.error "bad creds") (fun _ => none)
      "s" "alice" "pw" "https://bsky.social").success = false ∧
    (authenticate (fun _ _ _ => Except.error "bad creds") (fun _ => none)
      "s" "alice" "pw" "https://bsky.social").reg = (fun _ => none) := by
  have h := (authenticate_atomic_on_failure
    (fun _ _ _ => Except.error "bad creds") (fun _ => none)
    "s" "alice" "pw" "https://bsky.social").1 "bad creds" rfl
  exact ⟨h.1, h.2.2.1⟩

/-- C7 counterexample: `check_auth_status` is a tool-facing operation whose
discriminant on an unauthenticated session is `"not_authenticated"`, which
is neither `"success"` nor `"error"`. -/
theorem check_auth_status_discriminant_cx :
    (check_auth_status (Env.mk none none none) (fun _ => none) "s").status =
      "not_authenticated" ∧
    (check_auth_status (Env.mk none none none) (fun _ => none) "s").status ≠
      "success" ∧
    (check_auth_status (Env.mk none none none) (fun _ => none) "s").status ≠
      "error" := by
  refine ⟨rfl, ?_, ?_⟩ <;> decide

/-- C7 (amended): every embedded tool-facing operation returns a single
envelope and lets no exception escape; the `require_auth`-wrapped proxied
operations and `login` / `logout` always carry the discriminant `"success"`
or `"error"`, while `check_auth_status` instead carries `"authenticated"`
or `"not_authenticated"`. -/
theorem envelope_discriminant_total :
    (∀ doLogin env remote reg sid ha lim cur,
      statusOk (get_follows doLogin env remote reg sid ha lim cur).result) ∧
    (∀ doLogin env remote reg sid ha,
      statusOk (get_profile doLogin env remote reg sid ha).result) ∧
    (∀ doLogin reg sid handle password,
      statusOk (login_tool doLogin reg sid handle password).1) ∧
    (∀ reg sid, statusOk (logout_tool reg sid).1) ∧
    (∀ env reg sid,
      (check_auth_status env reg sid).status = "authenticated" ∨
      (check_auth_status env reg sid).status = "not_authenticated") := by
  refine ⟨?_, ?_, ?_, ?_, ?_⟩
  · intro doLogin env remote reg sid ha lim cur
    refine require_auth_status doLogin env _ reg sid (fun r => ?_)
    cases r sid with
    | some c => exact get_follows_body_status c remote ha lim cur
    | none => exact Or.inr rfl
  · intro doLogin env remote reg sid ha
    refine require_auth_status doLogin env _ reg sid (fun r => ?_)
    cases r sid with
    | some c => exact get_profile_body_status c remote ha
    | none => exact Or.inr rfl
  · intro doLogin reg sid handle password
    simp only [login_tool, statusOk]
    split
    · exact Or.inl rfl
    · exact Or.inr rfl
  · intro reg sid
    simp only [logout_tool, statusOk]
    split
    · exact Or.inl rfl
    · exact Or.inr rfl
  · intro env reg sid
    unfold check_auth_status
    split
    · exact Or.inl rfl
    · split
      · exact Or.inr rfl
      · exact Or.inr rfl

/-- C9: after a successful explicit `login` for a session, a protected
operation runs through the gate with no environment-authentication attempt
and no further remote login, and the stored handle is untouched. -/
theorem explicit_login_then_gate_no_reauth (doLogin : LoginFn) (env : Env)
    (func : Registry → Envelope) (reg : Registry)
    (sid handle password : String) (c : ClientHandle)
    (hok : doLogin handle password "https://bsky.social" = Except.ok c) :
    (login_tool doLogin reg sid handle password).1.status = "success" ∧
    (require_auth doLogin env func
      (login_tool doLogin reg sid handle password).2 sid).envAuthCalls = 0 ∧
    (require_auth doLogin env func
      (login_tool doLogin reg sid handle password).2 sid).loginCalls = 0 ∧
    (require_auth doLogin env func
      (login_tool doLogin reg sid handle password).2 sid).bodyRuns = 1 ∧
    (require_auth doLogin env func
      (login_tool doLogin reg sid handle password).2 sid).result =
      func (login_tool doLogin reg sid handle password).2 ∧
    (require_auth doLogin env func
      (login_tool doLogin reg sid handle password).2 sid).reg sid = some c := by
  refine ⟨?_, ?_, ?_, ?_, ?_, ?_⟩ <;>
    simp [login_tool, authenticate, hok, require_auth, is_authenticated,
      get_client, Registry.put]

theorem explicit_login_then_gate_witness :
    ((fun _ _ _ => Except.ok (⟨"alice", "did:plc:a", "Alice"⟩ : ClientHandle) :
      LoginFn) "alice" "pw" "https://bsky.social" =
      Except.ok (⟨"alice", "did:plc:a", "Alice"⟩ : ClientHandle)) ∧
    (require_auth
      (fun _ _ _ => Except.ok (⟨"alice", "did:plc:a", "Alice"⟩ : ClientHandle))
      (Env.mk none none none) (fun _ => { status := "success" })
      (login_tool
        (fun _ _ _ => Except.ok (⟨"alice", "did:plc:a", "Alice"⟩ : ClientHandle))
        (fun _ => none) "s" "alice" "pw").2 "s").loginCalls = 0 := by
  refine ⟨rfl, ?_⟩
  exact (explicit_login_then_gate_no_reauth
    (fun _ _ _ => Except.ok ⟨"alice", "did:plc:a", "Alice"⟩)
    (Env.mk none none none) (fun _ => { status := "success" })
    (fun _ => none) "s" "alice" "pw"
    ⟨"alice", "did:plc:a", "Alice"⟩ rfl).2.2.1

/-- C10: `authenticate_from_env` treats an empty-string variable exactly
like an unset one: whenever `BLUESKY_IDENTIFIER` or `BLUESKY_APP_PASSWORD`
is unset or empty it fails with the message naming both variables, performs
no remote login, and leaves the registry unchanged. -/
theorem env_auth_treats_empty_as_unset (doLogin : LoginFn) (env : Env)
    (reg : Registry) (sid : String)
    (hmiss : env.identifier = none ∨ env.identifier = some "" ∨
      env.password = none ∨ env.password = some "") :
    (authenticate_from_env doLogin env reg sid).success = false ∧
    (authenticate_from_env doLogin env reg sid).errorMsg =
      some missingCredsMsg ∧
    (authenticate_from_env doLogin env reg sid).loginCalls = 0 ∧
    (authenticate_from_env doLogin env reg sid).reg = reg := by
  have hemp : falsy (some "") = true := rfl
  have hnone : falsy none = true := rfl
  have hb : (falsy env.identifier || falsy env.password) = true := by
    rcases hmiss with h | h | h | h <;> simp [h, hemp, hnone]
  refine ⟨?_, ?_, ?_, ?_⟩ <;> simp [authenticate_from_env, hb]

theorem env_auth_empty_witness :
    ((Env.mk (some "") (some "pw") none).identifier = some "") ∧
    (authenticate_from_env (fun _ _ _ => Except.error "never")
      (Env.mk (some "") (some "pw") none) (fun _ => none) "s").loginCalls =
      0 := by
  exact ⟨rfl,
    (env_auth_treats_empty_as_unset (fun _ _ _ => Except.error "never")
      (Env.mk (some "") (some "pw") none) (fun _ => none) "s"
      (Or.inr (Or.inl rfl))).2.2.1⟩

end Bluesky
